import Mathlib

/-!
Verification of the Deep Space D-6 game rules engine.

This file gives a shallow embedding, in Lean 4, of the engine code
(`src/types/game.ts`, `src/logic/deck.ts`, `src/logic/dice.ts`,
`src/logic/threats.ts`, `src/logic/stations.ts`, `src/state/reducer.ts`)
and proves properties of the embedded definitions.  JavaScript numbers are
modelled as `Int` where subtraction matters (hull/shields/health) and as
`Nat` for counters and ids; the module-global threat-instance counter is
threaded explicitly; the ambient randomness (shuffles, re-rolls) is passed
in as an explicit environment.
-/

namespace DSD6

-- ── Primitive enumerations (src/types/game.ts) ────────────────────────────────

inductive GameStatus
  | idle | playing | won | lost
deriving DecidableEq, Repr

inductive LossReason
  | hull | crew
deriving DecidableEq, Repr

inductive TurnPhase
  | rolling | assigning | drawing | activating | gathering
deriving DecidableEq, Repr

inductive Difficulty
  | easy | normal | hard
deriving DecidableEq, Repr

inductive CrewFace
  | commander | tactical | medical | science | engineering | threat
deriving DecidableEq, Repr

inductive ThreatSymbol
  | skull | lightning | alien | warning | hazard | nova
deriving DecidableEq, Repr

inductive StationId
  | commander | tactical | engineering | medical | science | scanners | infirmary
deriving DecidableEq, Repr

/-- A die location.  In the source this is a string union; `'infirmary'` and
`'scanners'` as standalone locations are the same string values as the
corresponding `StationId`s, so they are modelled by `station .infirmary` and
`station .scanners`; the dynamically built string `threat-<instanceId>` is
modelled by the `threat` constructor carrying the instance id. -/
inductive DieLocation
  | pool
  | station (s : StationId)
  | threat (id : String)
deriving DecidableEq, Repr

inductive ThreatKind
  | internal | external | bossBarrier | filler
deriving DecidableEq, Repr

structure ResolutionRequirement where
  face : CrewFace
  count : Nat
deriving DecidableEq, Repr

structure ThreatCard where
  id : String
  name : String
  kind : ThreatKind
  activation : ThreatSymbol
  maxHealth : Int
  description : String
  resolution : Option ResolutionRequirement
  isOuroboros : Bool
  isBarrier : Bool
  immediateOnReveal : Bool
deriving DecidableEq, Repr

structure ActiveThreat where
  id : String
  card : ThreatCard
  health : Int
  stasisTokens : Nat
  awayMission : List Nat
  isDestroyed : Bool
deriving DecidableEq, Repr

structure CrewDie where
  id : Nat
  face : CrewFace
  location : DieLocation
deriving DecidableEq, Repr

structure GameState where
  status : GameStatus
  phase : TurnPhase
  difficulty : Difficulty
  hull : Int
  maxHull : Int
  shields : Int
  maxShields : Int
  crew : List CrewDie
  activeThreats : List ActiveThreat
  deck : List ThreatCard
  discard : List ThreatCard
  threatDieFace : Option ThreatSymbol
  selectedDieId : Option Nat
  tacticalDice : List Nat
  log : List String
  lossReason : Option LossReason
  turnNumber : Nat
  elapsedSeconds : Nat
  drawnCard : Option ThreatCard
  nebulaActive : Bool
  commsOfflineActive : Bool
  setupDrawsRemaining : Nat
  usedStationActions : List String
deriving DecidableEq, Repr

-- String forms used when the engine builds log lines.

def CrewFace.str : CrewFace → String
  | .commander => "commander"
  | .tactical => "tactical"
  | .medical => "medical"
  | .science => "science"
  | .engineering => "engineering"
  | .threat => "threat"

def ThreatSymbol.str : ThreatSymbol → String
  | .skull => "skull"
  | .lightning => "lightning"
  | .alien => "alien"
  | .warning => "warning"
  | .hazard => "hazard"
  | .nova => "nova"

def StationId.str : StationId → String
  | .commander => "commander"
  | .tactical => "tactical"
  | .engineering => "engineering"
  | .medical => "medical"
  | .science => "science"
  | .scanners => "scanners"
  | .infirmary => "infirmary"

-- ── Threat instance creation (src/logic/threats.ts) ───────────────────────────

/-- The source's `createActiveThreat` with the module-global `instanceCounter` threaded
explicitly: takes the counter before the call and returns the created
instance together with the incremented counter (`++instanceCounter`). -/
def createActiveThreat (card : ThreatCard) (counter : Nat) : ActiveThreat × Nat :=
  (⟨card.id ++ "-" ++ toString (counter + 1), card, card.maxHealth, 0, [], false⟩,
   counter + 1)

-- ── Damage helpers (src/logic/threats.ts) ─────────────────────────────────────

structure ShipDamageResult where
  hull : Int
  shields : Int
  log : List String
deriving DecidableEq, Repr

/-- Ship damage: `applyDamage(hull, shields, hullDmg, shieldDmg)` applies shield damage first
(direct, overflowing to hull), then hull damage (absorbed by remaining
shields first); both results floored at zero. -/
def applyDamage (hull shields hullDmg shieldDmg : Int) : ShipDamageResult :=
  let step1 :=
    if shieldDmg > 0 then
      let actual := min shields shieldDmg
      let s1 := shields - actual
      let overflow := shieldDmg - actual
      if overflow > 0 then
        (hull - overflow, s1,
         [toString shieldDmg ++ " shield damage — shields depleted, " ++
          toString overflow ++ " hull damage overflow."])
      else
        (hull, s1, [toString shieldDmg ++ " shield damage."])
    else (hull, shields, ([] : List String))
  let h1 := step1.1
  let s1 := step1.2.1
  let log1 := step1.2.2
  let step2 :=
    if hullDmg > 0 then
      let absorbed := min s1 hullDmg
      let s2 := s1 - absorbed
      let remaining := hullDmg - absorbed
      if absorbed > 0 then
        (h1 - remaining, s2,
         log1 ++ [toString hullDmg ++ " hull damage — shields absorbed " ++
                  toString absorbed ++ ", " ++ toString remaining ++ " hull damage."])
      else
        (h1 - remaining, s2, log1 ++ [toString hullDmg ++ " hull damage."])
    else (h1, s1, log1)
  ⟨max 0 step2.1, max 0 step2.2.1, step2.2.2⟩

-- ── Threat targetting rules (src/logic/threats.ts) ────────────────────────────

def canTargetThreat (threat : ActiveThreat) (allThreats : List ActiveThreat) : Bool :=
  if threat.card.kind != .external && threat.card.kind != .bossBarrier then false
  else if threat.isDestroyed then false
  else if threat.card.id == "orbital-cannon" then
    (allThreats.filter (fun t =>
      t.id != threat.id &&
      (t.card.kind == .external || t.card.kind == .bossBarrier) &&
      !t.isDestroyed)).length == 0
  else if threat.card.isOuroboros then
    (allThreats.find? (fun t => t.card.isBarrier && !t.isDestroyed)).isNone
  else true

def applyTacticalDamage (threats : List ActiveThreat) (targetId : String)
    (damage : Int) (timeWarpActive : Bool) : List ActiveThreat :=
  threats.map (fun t =>
    if t.id != targetId then t
    else
      let newHealth0 := t.health - damage
      let newHealth1 := if timeWarpActive && !t.card.isOuroboros then max 1 newHealth0
                        else newHealth0
      let newHealth := max 0 newHealth1
      { t with health := newHealth, isDestroyed := newHealth == 0 })

-- ── Win/loss detection (src/logic/threats.ts) ─────────────────────────────────

def checkWin {α : Type} (deck : List α) (activeThreats : List ActiveThreat) : Bool :=
  if deck.length > 0 then false
  else
    (activeThreats.filter (fun t =>
      (t.card.kind == .external || t.card.isOuroboros || t.card.isBarrier) &&
      !t.isDestroyed)).length == 0

def checkCrewLoss (crew : List CrewDie) : Bool :=
  crew.all (fun d =>
    match d.location with
    | .station .infirmary => true
    | .station .scanners => true
    | .threat _ => true
    | _ => false)

-- ── Dice helpers (src/logic/dice.ts) ──────────────────────────────────────────

/-- The source's `rollAllCrewDice(count)` with the random faces supplied by an explicit
stream `r`. -/
def rollAllCrewDice (r : Nat → CrewFace) (count : Nat) : List CrewFace :=
  (List.range count).map r

/-- Tactical damage formula: 1 die = 1 dmg, each additional die adds 2. -/
def calculateTacticalDamage (diceCount : Nat) : Int :=
  if diceCount = 0 then 0 else 1 + (diceCount - 1 : Nat) * 2

-- ── Station resolution helpers (src/logic/stations.ts) ────────────────────────

def getDiceAtStation (crew : List CrewDie) (stationId : StationId) : List CrewDie :=
  crew.filter (fun d => d.location == .station stationId)

def countAtStation (crew : List CrewDie) (stationId : StationId) : Nat :=
  (getDiceAtStation crew stationId).length

def resolveEngineering (hull maxHull : Int) (engineeringDiceCount : Int) : Int :=
  min maxHull (hull + engineeringDiceCount)

def resolveMedical (crew : List CrewDie) : List CrewDie :=
  crew.map (fun d =>
    if d.location == .station .infirmary then { d with location := .pool } else d)

/-- Release one die from Scanners back to pool: the source maps over the crew
with a `released` flag, so exactly the first scanner die (in crew order) is
moved and the rest is returned unchanged. -/
def releaseFromScanners : List CrewDie → List CrewDie
  | [] => []
  | d :: ds =>
    if d.location == .station .scanners then { d with location := .pool } :: ds
    else d :: releaseFromScanners ds

def resolveScience (maxShields : Int) : Int := maxShields

def placeStasisToken (threats : List ActiveThreat) (threatId : String) :
    List ActiveThreat :=
  threats.map (fun t =>
    if t.id == threatId then { t with stasisTokens := t.stasisTokens + 1 } else t)

def commanderChangeDie (crew : List CrewDie) (dieId : Nat) (newFace : CrewFace) :
    List CrewDie :=
  crew.map (fun d => if d.id == dieId then { d with face := newFace } else d)

def commanderRerollCount (crew : List CrewDie) : Nat :=
  (crew.filter (fun d => d.location == .pool)).length

def isThreatResolved (threat : ActiveThreat) (crew : List CrewDie) : Bool :=
  match threat.card.resolution with
  | none => false
  | some r =>
    (crew.filter (fun d =>
      d.location == .threat threat.id && d.face == r.face)).length ≥ r.count

def resolveThreat (threats : List ActiveThreat) (crew : List CrewDie)
    (threatId : String) : List ActiveThreat × List CrewDie :=
  (threats.filter (fun t => t.id != threatId),
   crew.map (fun d =>
     if d.location == .threat threatId then { d with location := .pool } else d))

structure ScannersResult where
  crew : List CrewDie
  extraDraws : Nat
deriving DecidableEq, Repr

/-- Every 3 dice in the scanners draw 1 threat card and are released. -/
def processScanners (crew : List CrewDie) : ScannersResult :=
  let scannerDice := crew.filter (fun d => d.location == .station .scanners)
  let groups := scannerDice.length / 3
  if groups = 0 then ⟨crew, 0⟩
  else
    let toRelease := (scannerDice.take (groups * 3)).map (·.id)
    ⟨crew.map (fun d =>
       if toRelease.contains d.id then { d with location := .pool } else d),
     groups⟩

/-- Return all assigned dice to pool except infirmary, scanners, and dice
locked on a still-active threat. -/
def gatherCrew (crew : List CrewDie) (activeThreats : List ActiveThreat) :
    List CrewDie :=
  let activeThreatIds := activeThreats.map (·.id)
  crew.map (fun d =>
    match d.location with
    | .station .infirmary => d
    | .station .scanners => d
    | .threat tid => if activeThreatIds.contains tid then d
                     else { d with location := .pool }
    | _ => { d with location := .pool })

def isNebulaActive (threats : List ActiveThreat) : Bool :=
  threats.any (fun t => t.card.id == "nebula" && !t.isDestroyed)

def isCommsOfflineActive (threats : List ActiveThreat) : Bool :=
  threats.any (fun t => t.card.id == "comms-offline" && !t.isDestroyed)

def isTimeWarpActive (threats : List ActiveThreat) : Bool :=
  threats.any (fun t => t.card.id == "time-warp" && !t.isDestroyed)

/-- The face a station requires, `none` for the non-assignable stations
(mirrors the five-entry record lookup in `canAssignToStation`). -/
def expectedFaceFor : StationId → Option CrewFace
  | .commander => some .commander
  | .tactical => some .tactical
  | .medical => some .medical
  | .science => some .science
  | .engineering => some .engineering
  | .scanners => none
  | .infirmary => none

/-- Eligibility for dropping a die on a station (used by the presentation
layer, `src/components/Station/Station.tsx`, to gate drops). -/
def canAssignToStation (die : CrewDie) (stationId : StationId)
    (commsOfflineActive : Bool) : Bool :=
  if die.location != .pool then false
  else if stationId == .infirmary || stationId == .scanners then false
  else if commsOfflineActive && stationId == .commander then false
  else
    match expectedFaceFor stationId with
    | none => false
    | some f => die.face == f

def canAssignToThreat (die : CrewDie) (threat : ActiveThreat)
    (phase : TurnPhase) : Bool :=
  if phase != .assigning then false
  else if die.location != .pool then false
  else if threat.card.kind != .internal then false
  else
    match threat.card.resolution with
    | none => false
    | some r => die.face == r.face

-- ── Crew helpers (src/logic/threats.ts) ───────────────────────────────────────

/-- The scan-and-convert loop of `sendToInfirmary`: walk the crew in order,
moving pool dice to the infirmary while fewer than `count` have been sent;
returns the new crew and how many were sent. -/
def sendGo : List CrewDie → Nat → List CrewDie × Nat
  | [], _ => ([], 0)
  | d :: ds, 0 => (d :: ds, 0)
  | d :: ds, n + 1 =>
    if d.location == .pool then
      let r := sendGo ds n
      ({ d with location := .station .infirmary } :: r.1, r.2 + 1)
    else
      let r := sendGo ds (n + 1)
      (d :: r.1, r.2)

/-- Send up to `count` crew from pool to infirmary, logging when any were
sent. -/
def sendToInfirmary (crew : List CrewDie) (count : Nat) (log : List String) :
    List CrewDie × List String :=
  let r := sendGo crew count
  (r.1, if r.2 > 0 then log ++ [toString r.2 ++ " crew sent to Infirmary."] else log)

-- ── Threat activation (src/logic/threats.ts) ──────────────────────────────────

structure ActivationResult where
  hull : Int
  shields : Int
  threats : List ActiveThreat
  crew : List CrewDie
  log : List String
  extraDraw : Bool
deriving DecidableEq, Repr

structure ActivationInput where
  hull : Int
  shields : Int
  maxShields : Int
  activeThreats : List ActiveThreat
  crew : List CrewDie
deriving DecidableEq, Repr

/-- One ship-damage application inside the activation loop
(`applyDamage` on the accumulator plus log merge). -/
def dealShipDamage (acc : ActivationResult) (hullDmg shieldDmg : Int) :
    ActivationResult :=
  let dmg := applyDamage acc.hull acc.shields hullDmg shieldDmg
  { acc with hull := dmg.hull, shields := dmg.shields, log := acc.log ++ dmg.log }

/-- One pool-to-infirmary send inside the activation loop. -/
def sendCrewToInfirmary (acc : ActivationResult) (count : Nat) :
    ActivationResult :=
  let r := sendToInfirmary acc.crew count acc.log
  { acc with crew := r.1, log := r.2 }

/-- The per-card-identity effect table (the `switch (threat.card.id)` in the
source, reached for non-barrier cards that actually activate). -/
def applyCardEffect (acc : ActivationResult) (threat : ActiveThreat) :
    ActivationResult :=
  if threat.card.id == "panel-explosion" then sendCrewToInfirmary acc 1
  else if threat.card.id == "distracted" || threat.card.id == "distracted-2" ||
          threat.card.id == "distracted-3" then
    { acc with
      crew := acc.crew.map (fun d =>
        if d.location == .threat threat.id then { d with location := .pool } else d),
      threats := acc.threats.filter (fun t => t.id != threat.id),
      log := acc.log ++ ["Distracted crew member returns to duty."] }
  else if threat.card.id == "friendly-fire" then dealShipDamage acc 1 0
  else if threat.card.id == "boost-morale" then
    match acc.crew.filter (fun d => d.location == .station .infirmary) with
    | [] => { acc with log := acc.log ++ ["Boost Morale: no crew in Infirmary."] }
    | first :: _ =>
      { acc with
        crew := acc.crew.map (fun d =>
          if d.id == first.id then { d with location := .pool } else d),
        log := acc.log ++ ["Morale boost! 1 crew recovered from Infirmary."] }
  else if threat.card.id == "nebula" then dealShipDamage acc 0 1
  else if threat.card.id == "time-warp" then
    { acc with log := acc.log ++ ["Time Warp: top discard cards shuffled back into deck."] }
  else if threat.card.id == "pandemic" then
    let poolCount := (acc.crew.filter (fun d => d.location == .pool)).length
    { acc with
      crew := acc.crew.map (fun d =>
        if d.location == .pool then { d with location := .station .infirmary } else d),
      log := acc.log ++ ["Pandemic! " ++ toString poolCount ++ " crew sent to Infirmary."] }
  else if threat.card.id == "spore-infestation" then sendCrewToInfirmary acc 2
  else if threat.card.id == "robot-uprising" then sendCrewToInfirmary acc 2
  else if threat.card.id == "comms-offline" then
    { acc with
      extraDraw := true,
      log := acc.log ++ ["Comms Offline: draw 1 extra threat card this turn."] }
  else if threat.card.id == "strike-bombers" || threat.card.id == "strike-bombers-2" then
    dealShipDamage acc 1 0
  else if threat.card.id == "scout" || threat.card.id == "scout-2" then
    dealShipDamage acc 0 1
  else if threat.card.id == "pirates" then dealShipDamage acc 2 0
  else if threat.card.id == "space-pirates" then dealShipDamage acc 2 1
  else if threat.card.id == "orbital-cannon" then dealShipDamage acc 3 0
  else if threat.card.id == "hijackers" then sendCrewToInfirmary acc 1
  else if threat.card.id == "ouroboros" then dealShipDamage acc 3 0
  else acc

/-- The barrier branch: regenerate to full and deal 2 hull damage. -/
def barrierActivation (acc : ActivationResult) (threat : ActiveThreat) :
    ActivationResult :=
  let threats := acc.threats.map (fun t =>
    if t.id == threat.id then
      { t with health := t.card.maxHealth, isDestroyed := false }
    else t)
  let dmg := applyDamage acc.hull acc.shields 2 0
  { acc with
    hull := dmg.hull, shields := dmg.shields, threats := threats,
    log := acc.log ++ dmg.log ++ ["Ouroboros Barrier regenerated to full health!"] }

/-- One iteration of the activation loop body, acting on the accumulated
result. -/
def activateStep (rolledFace : ThreatSymbol) (acc : ActivationResult)
    (threat : ActiveThreat) : ActivationResult :=
  if threat.card.kind == .filler then acc
  else if threat.card.activation != rolledFace then acc
  else if threat.isDestroyed && !threat.card.isBarrier then acc
  else
    match acc.threats.find? (fun t => t.id == threat.id) with
    | none => acc
    | some current =>
      if current.stasisTokens > 0 then
        { acc with
          threats := acc.threats.map (fun t =>
            if t.id == threat.id then { t with stasisTokens := t.stasisTokens - 1 }
            else t),
          log := acc.log ++ [threat.card.name ++ " activation suppressed by stasis token."] }
      else
        let acc1 := { acc with log := acc.log ++ [threat.card.name ++ " activates!"] }
        if threat.card.isBarrier then barrierActivation acc1 threat
        else applyCardEffect acc1 threat

/-- Activate all threats whose activation symbol matches the rolled face;
internal threats are processed first (`sort` with a binary stable comparator
is a stable partition). -/
def activateThreats (state : ActivationInput) (rolledFace : ThreatSymbol) :
    ActivationResult :=
  let ordered :=
    state.activeThreats.filter (fun t => t.card.kind == .internal) ++
    state.activeThreats.filter (fun t => !(t.card.kind == .internal))
  ordered.foldl (activateStep rolledFace)
    ⟨state.hull, state.shields, state.activeThreats, state.crew, [], false⟩

-- ── Deck builder (src/logic/deck.ts) ──────────────────────────────────────────

def dontPanicCount : Difficulty → Nat
  | .easy => 6
  | .normal => 3
  | .hard => 0

def DON_T_PANIC : ThreatCard :=
  ⟨"dont-panic", "Don\x27t Panic", .filler, .skull, 0,
   "Nothing happens. Breathe.", none, false, false, false⟩

def PANEL_EXPLOSION : ThreatCard :=
  ⟨"panel-explosion", "Panel Explosion", .internal, .warning, 0,
   "ACTIVATE: Send 1 crew to the Infirmary.",
   some ⟨.engineering, 1⟩, false, false, false⟩

def DISTRACTED : ThreatCard :=
  ⟨"distracted", "Distracted", .internal, .nova, 0,
   "REVEAL: Immediately lock 1 crew die here. ACTIVATE: Free the die; discard this card.",
   none, false, false, true⟩

def DISTRACTED_2 : ThreatCard := { DISTRACTED with id := "distracted-2" }

def DISTRACTED_3 : ThreatCard := { DISTRACTED with id := "distracted-3" }

def FRIENDLY_FIRE : ThreatCard :=
  ⟨"friendly-fire", "Friendly Fire", .internal, .lightning, 0,
   "ACTIVATE: Deal 1 hull damage.", some ⟨.tactical, 1⟩, false, false, false⟩

def BOOST_MORALE : ThreatCard :=
  ⟨"boost-morale", "Boost Morale", .internal, .nova, 0,
   "ACTIVATE: Return 1 crew from the Infirmary.",
   some ⟨.commander, 1⟩, false, false, false⟩

def NEBULA : ThreatCard :=
  ⟨"nebula", "Nebula", .internal, .hazard, 0,
   "While in play: shields cannot be recharged. ACTIVATE: Deal 1 shield damage.",
   some ⟨.science, 2⟩, false, false, false⟩

def TIME_WARP : ThreatCard :=
  ⟨"time-warp", "Time Warp", .internal, .nova, 0,
   "While in play: external threats cannot be damaged below 1 HP. ACTIVATE: Shuffle the top 3 discard cards back into the deck.",
   some ⟨.science, 2⟩, false, false, false⟩

def PANDEMIC : ThreatCard :=
  ⟨"pandemic", "Pandemic", .internal, .hazard, 0,
   "ACTIVATE: Send ALL crew currently in the pool to the Infirmary.",
   some ⟨.medical, 2⟩, false, false, false⟩

def SPORE_INFESTATION : ThreatCard :=
  ⟨"spore-infestation", "Spore: Infestation", .internal, .alien, 0,
   "ACTIVATE: Send 2 crew to the Infirmary.", some ⟨.medical, 1⟩, false, false, false⟩

def ROBOT_UPRISING : ThreatCard :=
  ⟨"robot-uprising", "Robot Uprising", .internal, .warning, 0,
   "ACTIVATE: Send 2 crew to the Infirmary.", some ⟨.tactical, 2⟩, false, false, false⟩

def COMMS_OFFLINE : ThreatCard :=
  ⟨"comms-offline", "Comms Offline", .internal, .lightning, 0,
   "While in play: Commander station is disabled. ACTIVATE: Draw 1 extra threat card.",
   some ⟨.engineering, 2⟩, false, false, false⟩

def STRIKE_BOMBERS : ThreatCard :=
  ⟨"strike-bombers", "Strike Bombers", .external, .lightning, 3,
   "ACTIVATE: Deal 1 hull damage.", none, false, false, false⟩

def STRIKE_BOMBERS_2 : ThreatCard := { STRIKE_BOMBERS with id := "strike-bombers-2" }

def SCOUT : ThreatCard :=
  ⟨"scout", "Scout", .external, .hazard, 2,
   "ACTIVATE: Deal 1 shield damage (or 1 hull if shields are down).",
   none, false, false, false⟩

def SCOUT_2 : ThreatCard := { SCOUT with id := "scout-2" }

def PIRATES : ThreatCard :=
  ⟨"pirates", "Pirates", .external, .skull, 4,
   "ACTIVATE: Deal 2 hull damage.", none, false, false, false⟩

def SPACE_PIRATES : ThreatCard :=
  ⟨"space-pirates", "Space Pirates", .external, .skull, 5,
   "ACTIVATE: Deal 2 hull damage and 1 shield damage.", none, false, false, false⟩

def ORBITAL_CANNON : ThreatCard :=
  ⟨"orbital-cannon", "Orbital Cannon", .external, .warning, 6,
   "Can only be targeted when it is the ONLY active external threat. ACTIVATE: Deal 3 hull damage.",
   none, false, false, false⟩

def SOLAR_WINDS_FLAGSHIP : ThreatCard :=
  ⟨"solar-winds-flagship", "Solar Winds Flagship", .external, .skull, 1,
   "REVEAL: Immediately deal 5 hull damage, then discard.", none, false, false, true⟩

def HIJACKERS : ThreatCard :=
  ⟨"hijackers", "Hijackers", .external, .alien, 3,
   "ACTIVATE: Send 1 crew to the Infirmary.", none, false, false, false⟩

def OUROBOROS_BARRIER : ThreatCard :=
  ⟨"ouroboros-barrier", "Ouroboros Barrier", .bossBarrier, .alien, 4,
   "Protects Ouroboros from all damage. When destroyed, Ouroboros can be attacked. ACTIVATE: Deal 2 hull damage and regenerate to full HP.",
   none, false, true, false⟩

def OUROBOROS : ThreatCard :=
  ⟨"ouroboros", "Ouroboros", .external, .alien, 8,
   "Final boss. Cannot be damaged while the Ouroboros Barrier is active. ACTIVATE: Deal 3 hull damage.",
   none, true, false, false⟩

def CORE_CARDS : List ThreatCard :=
  [PANEL_EXPLOSION, PANEL_EXPLOSION, DISTRACTED, DISTRACTED_2, DISTRACTED_3,
   FRIENDLY_FIRE, FRIENDLY_FIRE, BOOST_MORALE, NEBULA, TIME_WARP, PANDEMIC,
   SPORE_INFESTATION, ROBOT_UPRISING, COMMS_OFFLINE,
   STRIKE_BOMBERS, STRIKE_BOMBERS_2, SCOUT, SCOUT_2, PIRATES, SPACE_PIRATES,
   ORBITAL_CANNON, SOLAR_WINDS_FLAGSHIP, HIJACKERS,
   OUROBOROS_BARRIER]

/-- Swap the entries at positions `i` and `j` (the body of the Fisher–Yates
loop); indices out of range leave the list unchanged (they never are). -/
def swapIdx {α : Type} (l : List α) (i j : Nat) : List α :=
  match l[i]?, l[j]? with
  | some a, some b => (l.set i b).set j a
  | _, _ => l

/-- The Fisher–Yates loop of `shuffle`, running the index `i` from the
current value down to `1`; the random pick `Math.floor(Math.random()*(i+1))`
is modelled by `rand i % (i+1)`, which ranges over exactly the values the
source can produce. -/
def shuffleGo {α : Type} (rand : Nat → Nat) : Nat → List α → List α
  | 0, l => l
  | i + 1, l => shuffleGo rand i (swapIdx l (i + 1) (rand (i + 1) % (i + 2)))

def shuffle {α : Type} (rand : Nat → Nat) (l : List α) : List α :=
  shuffleGo rand (l.length - 1) l

/-- Build and shuffle the threat deck; Ouroboros is always the last card. -/
def buildDeck (rand : Nat → Nat) (difficulty : Difficulty) : List ThreatCard :=
  let dontPanics := List.replicate (dontPanicCount difficulty) DON_T_PANIC
  let mainDeck := shuffle rand (CORE_CARDS ++ dontPanics)
  mainDeck ++ [OUROBOROS]

/-- Draw the top card from the deck. -/
def drawCard (deck : List ThreatCard) :
    Option (ThreatCard × List ThreatCard) :=
  match deck with
  | [] => none
  | card :: rest => some (card, rest)

-- ── Actions (src/state/actions.ts) ────────────────────────────────────────────

inductive GameAction
  | testLoadState (state : GameState)
  | newGame (difficulty : Difficulty)
  | tick
  | startRoll
  | rollComplete (faces : List CrewFace)
  | selectDie (dieId : Option Nat)
  | assignToStation (dieId : Nat) (stationId : StationId)
  | assignToThreat (dieId : Nat) (threatId : String)
  | useEngineering
  | useMedical
  | useMedicalScanners
  | useTactical (targetThreatId : String)
  | useScienceShields
  | useScienceStasis (targetThreatId : String)
  | useCommanderReroll
  | useCommanderChange (targetDieId : Nat) (newFace : CrewFace)
  | endAssignPhase
  | acknowledgeDraw
  | startThreatRoll
  | threatRollComplete (face : ThreatSymbol)
  | acknowledgeActivate
  | acknowledgeGather
deriving DecidableEq, Repr

/-- The ambient inputs of one reducer call: the module-global instance
counter on entry, and the random streams consumed by `buildDeck`, the
time-warp reshuffle, and the commander re-roll. -/
structure REnv where
  counter : Nat
  deckRand : Nat → Nat
  reshuffleRand : Nat → Nat
  rerollFaces : Nat → CrewFace

-- ── Reducer helpers (src/state/reducer.ts) ────────────────────────────────────

def makeInitialState : GameState :=
  { status := .idle, phase := .rolling, difficulty := .normal,
    hull := 8, maxHull := 8, shields := 4, maxShields := 4,
    crew := (List.range 6).map (fun i => ⟨i, .tactical, .pool⟩),
    activeThreats := [], deck := [], discard := [],
    threatDieFace := none, selectedDieId := none, tacticalDice := [],
    log := [], lossReason := none, turnNumber := 0, elapsedSeconds := 0,
    drawnCard := none, nebulaActive := false, commsOfflineActive := false,
    setupDrawsRemaining := 0, usedStationActions := [] }

/-- The `Partial<GameState>` returned by `applyRevealEffect`: only the keys
that may be present. -/
structure RevealEffects where
  hull : Option Int := none
  shields : Option Int := none
  crew : Option (List CrewDie) := none
  activeThreats : Option (List ActiveThreat) := none
  discard : Option (List ThreatCard) := none
  log : Option (List String) := none
deriving DecidableEq, Repr

/-- Apply threat card effects on reveal (instance counter threaded). -/
def applyRevealEffect (state : GameState) (card : ThreatCard) (counter : Nat) :
    RevealEffects × Nat :=
  if !card.immediateOnReveal then ({}, counter)
  else if card.id == "solar-winds-flagship" then
    let totalDmg : Int := 5
    let absorbed := min state.shields totalDmg
    let shields := state.shields - absorbed
    let hull := max 0 (state.hull - (totalDmg - absorbed))
    ({ hull := some hull, shields := some shields,
       log := some (state.log ++
         ["Solar Winds Flagship fires! " ++ toString totalDmg ++
          " hull damage dealt. Card discarded."]),
       discard := some (state.discard ++ [card]) }, counter)
  else if card.id.startsWith "distracted" then
    let r := createActiveThreat card counter
    let newThreat := r.1
    let threats := state.activeThreats ++ [newThreat]
    match state.crew.find? (fun d => d.location == .pool) with
    | some poolDie =>
      ({ crew := some (state.crew.map (fun d =>
           if d.id == poolDie.id then { d with location := .threat newThreat.id } else d)),
         activeThreats := some threats,
         log := some (state.log ++
           [card.name ++ ": " ++ poolDie.face.str ++ " crew member is distracted!"]) }, r.2)
    | none =>
      ({ crew := some state.crew, activeThreats := some threats,
         log := some (state.log ++
           [card.name ++ ": no crew available to distract."]) }, r.2)
  else ({}, counter)

/-- Draw and process a single threat card (no-op on an empty deck). -/
def drawAndProcessCard (state : GameState) (counter : Nat) : GameState × Nat :=
  match drawCard state.deck with
  | none => (state, counter)
  | some (card, remainingDeck) =>
    let log := state.log ++ ["Threat card drawn: " ++ card.name ++ "."]
    if card.kind == .filler then
      ({ state with deck := remainingDeck, discard := state.discard ++ [card],
                    log := log ++ [card.name ++ " — nothing happens."],
                    drawnCard := some card }, counter)
    else
      let re := applyRevealEffect { state with deck := remainingDeck, log := log } card counter
      let effects := re.1
      let merged : (List ActiveThreat × List ThreatCard) × Nat :=
        if !card.immediateOnReveal then
          let ct := createActiveThreat card re.2
          ((state.activeThreats ++ [ct.1], state.discard), ct.2)
        else if card.id == "solar-winds-flagship" then
          ((state.activeThreats, effects.discard.getD state.discard), re.2)
        else if card.id.startsWith "distracted" then
          ((effects.activeThreats.getD state.activeThreats, state.discard), re.2)
        else ((state.activeThreats, state.discard), re.2)
      ({ state with
           hull := effects.hull.getD state.hull,
           shields := effects.shields.getD state.shields,
           crew := effects.crew.getD state.crew,
           deck := remainingDeck,
           activeThreats := merged.1.1,
           discard := merged.1.2,
           log := effects.log.getD log,
           drawnCard := some card }, merged.2)

/-- One iteration of the resolved-internal-threat sweep. -/
def resolveStep (cur : GameState) (threat : ActiveThreat) : GameState :=
  if threat.card.kind == .internal && isThreatResolved threat cur.crew then
    let r := resolveThreat cur.activeThreats cur.crew threat.id
    { cur with activeThreats := r.1, crew := r.2,
               discard := cur.discard ++ [threat.card],
               log := cur.log ++ [threat.card.name ++ " resolved!"] }
  else cur

/-- After assign phase, process any resolved internal threats (iterating
over the threat list as it was at entry). -/
def processResolvedThreats (state : GameState) : GameState :=
  state.activeThreats.foldl resolveStep state

def withPassiveFlags (state : GameState) : GameState :=
  { state with nebulaActive := isNebulaActive state.activeThreats,
               commsOfflineActive := isCommsOfflineActive state.activeThreats }

def withWinLossCheck (state : GameState) : GameState :=
  if state.hull ≤ 0 then { state with status := .lost, lossReason := some .hull }
  else if state.status == .playing && checkCrewLoss state.crew then
    { state with status := .lost, lossReason := some .crew }
  else if state.status == .playing && checkWin state.deck state.activeThreats then
    { state with status := .won }
  else state

def startNewGame (env : REnv) (difficulty : Difficulty) : GameState × Nat :=
  let deck := buildDeck env.deckRand difficulty
  let crew : List CrewDie := (List.range 6).map (fun i => ⟨i, .tactical, .pool⟩)
  let state : GameState :=
    { makeInitialState with
        status := .playing, phase := .rolling, difficulty := difficulty,
        deck := deck, crew := crew,
        log := ["Game started. Drawing 2 initial threat cards..."],
        turnNumber := 1 }
  let r := drawAndProcessCard { state with setupDrawsRemaining := 2 } env.counter
  (withWinLossCheck (withPassiveFlags { r.1 with phase := .drawing }), r.2)

/-- The per-extra-draw loop of `ROLL_COMPLETE` (`total` draws, logging
`(Scanner draw i/total)` after each). -/
def scannerDrawLoop (total : Nat) : Nat → GameState × Nat → GameState × Nat
  | 0, sc => sc
  | f + 1, sc =>
    let sc1 := drawAndProcessCard sc.1 sc.2
    let i := total - (f + 1)
    scannerDrawLoop total f
      ({ sc1.1 with log := sc1.1.log ++
          ["(Scanner draw " ++ toString (i + 1) ++ "/" ++ toString total ++ ")"] }, sc1.2)

/-- Repeated draw-and-process (the commander re-roll extra-draw loop). -/
def drawN : Nat → GameState × Nat → GameState × Nat
  | 0, sc => sc
  | n + 1, sc => drawN n (drawAndProcessCard sc.1 sc.2)

-- Substring test used by the time-warp reshuffle (`l.includes('Time Warp')`).

def prefOf : List Char → List Char → Bool
  | [], _ => true
  | _ :: _, [] => false
  | a :: as, b :: bs => a == b && prefOf as bs

def containsSeq (pat : List Char) : List Char → Bool
  | [] => prefOf pat []
  | a :: t => if prefOf pat (a :: t) then true else containsSeq pat t

-- ── The reducer (src/state/reducer.ts) ────────────────────────────────────────

/-- The top-level reducer.  Returns the new state together with the final
value of the module-global instance counter (which enters via
`env.counter`). -/
def gameReducer (env : REnv) (state : GameState) (action : GameAction) :
    GameState × Nat :=
  match action with
  | .testLoadState s => (s, env.counter)
  | .newGame difficulty => startNewGame env difficulty
  | .tick =>
    if state.status != .playing then (state, env.counter)
    else ({ state with elapsedSeconds := state.elapsedSeconds + 1 }, env.counter)
  | .startRoll =>
    if state.status != .playing || state.phase != .rolling then (state, env.counter)
    else ({ state with
              log := ["Turn " ++ toString state.turnNumber ++ ": Rolling crew dice..."] },
          env.counter)
  | .rollComplete faces =>
    if state.status != .playing || state.phase != .rolling then (state, env.counter)
    else
      let poolDice := state.crew.filter (fun d => d.location == .pool)
      let crew1 := state.crew.map (fun d =>
        match poolDice.findIdx? (fun p => p.id == d.id) with
        | none => d
        | some i => { d with face := (faces[i]?).getD d.face })
      let newThreatCount :=
        (crew1.filter (fun d => d.location == .pool && d.face == .threat)).length
      let crew2 := crew1.map (fun d =>
        if d.location == .pool && d.face == .threat then
          { d with location := .station .scanners }
        else d)
      let log := state.log ++
        (if newThreatCount > 0 then
          [toString newThreatCount ++ " die/dice locked in Scanners (Threat Detected)."]
         else [])
      let pr := processScanners crew2
      let sc := scannerDrawLoop pr.extraDraws pr.extraDraws
        ({ state with crew := pr.crew, log := log }, env.counter)
      (withWinLossCheck
        (withPassiveFlags { sc.1 with phase := .assigning, drawnCard := none }), sc.2)
  | .selectDie dieId =>
    if state.status != .playing || state.phase != .assigning then (state, env.counter)
    else ({ state with selectedDieId := dieId }, env.counter)
  | .assignToStation dieId stationId =>
    if state.status != .playing || state.phase != .assigning then (state, env.counter)
    else
      match state.crew.find? (fun d => d.id == dieId) with
      | none => (state, env.counter)
      | some die =>
        if die.location != .pool then (state, env.counter)
        else
          let crew := state.crew.map (fun d =>
            if d.id == dieId then { d with location := .station stationId } else d)
          let tacticalDice :=
            if stationId == .tactical then state.tacticalDice ++ [dieId]
            else state.tacticalDice
          (withPassiveFlags
            { state with crew := crew, tacticalDice := tacticalDice,
                         selectedDieId := none,
                         log := state.log ++
                           ["Assigned " ++ die.face.str ++ " die to " ++
                            stationId.str ++ "."] }, env.counter)
  | .assignToThreat dieId threatId =>
    if state.status != .playing || state.phase != .assigning then (state, env.counter)
    else
      match state.crew.find? (fun d => d.id == dieId),
            state.activeThreats.find? (fun t => t.id == threatId) with
      | some die, some threat =>
        if die.location != .pool then (state, env.counter)
        else if threat.card.kind != .internal then (state, env.counter)
        else
          match threat.card.resolution with
          | none => (state, env.counter)
          | some r =>
            if die.face != r.face then (state, env.counter)
            else
              let crew := state.crew.map (fun d =>
                if d.id == dieId then { d with location := .threat threatId } else d)
              let activeThreats := state.activeThreats.map (fun t =>
                if t.id == threatId then
                  { t with awayMission := t.awayMission ++ [dieId] }
                else t)
              let log := state.log ++
                [die.face.str ++ " die sent to " ++ threat.card.name ++ " (away mission)."]
              let newState := withPassiveFlags
                { state with crew := crew, activeThreats := activeThreats,
                             selectedDieId := none, log := log }
              (withPassiveFlags (processResolvedThreats newState), env.counter)
      | _, _ => (state, env.counter)
  | .useEngineering =>
    if state.status != .playing || state.phase != .assigning then (state, env.counter)
    else
      let engCount := countAtStation state.crew .engineering
      if engCount = 0 then (state, env.counter)
      else
        let newHull := resolveEngineering state.hull state.maxHull engCount
        let repaired := newHull - state.hull
        ({ state with hull := newHull,
                      log := state.log ++
                        ["Engineering repaired " ++ toString repaired ++ " hull. (" ++
                         toString newHull ++ "/" ++ toString state.maxHull ++ ")"] },
         env.counter)
  | .useMedical =>
    if state.status != .playing || state.phase != .assigning then (state, env.counter)
    else if state.usedStationActions.contains "USE_MEDICAL" then (state, env.counter)
    else
      let medCount := countAtStation state.crew .medical
      if medCount = 0 then (state, env.counter)
      else
        let infirmaryCount := countAtStation state.crew .infirmary
        ({ state with crew := resolveMedical state.crew,
                      usedStationActions := state.usedStationActions ++ ["USE_MEDICAL"],
                      log := state.log ++
                        ["Medical: " ++ toString infirmaryCount ++
                         " crew recovered from Infirmary."] }, env.counter)
  | .useMedicalScanners =>
    if state.status != .playing || state.phase != .assigning then (state, env.counter)
    else
      let medCount := countAtStation state.crew .medical
      if medCount = 0 then (state, env.counter)
      else
        ({ state with crew := releaseFromScanners state.crew,
                      log := state.log ++ ["Medical: 1 crew released from Scanners."] },
         env.counter)
  | .useTactical targetThreatId =>
    if state.status != .playing || state.phase != .assigning then (state, env.counter)
    else
      let tactCount := state.tacticalDice.length
      if tactCount = 0 then (state, env.counter)
      else
        match state.activeThreats.find? (fun t => t.id == targetThreatId) with
        | none => (state, env.counter)
        | some target =>
          if !canTargetThreat target state.activeThreats then (state, env.counter)
          else
            let damage := calculateTacticalDamage tactCount
            let timeWarp := isTimeWarpActive state.activeThreats
            let activeThreats :=
              applyTacticalDamage state.activeThreats targetThreatId damage timeWarp
            let destroyed :=
              (((activeThreats.find? (fun t => t.id == targetThreatId)).map
                  (·.isDestroyed)).getD false)
            let log := state.log ++
              ["Tactical: " ++ toString tactCount ++ " " ++
               (if tactCount = 1 then "die" else "dice") ++ " fire at " ++
               target.card.name ++ " for " ++ toString damage ++ " damage." ++
               (if destroyed then " Target destroyed!" else "")]
            let discard := activeThreats.foldl
              (fun dsc t =>
                if t.id == targetThreatId && t.isDestroyed && !t.card.isBarrier then
                  dsc ++ [t.card]
                else dsc)
              state.discard
            let finalThreats :=
              activeThreats.filter (fun t => !t.isDestroyed || t.card.isBarrier)
            (withWinLossCheck (withPassiveFlags
              { state with activeThreats := finalThreats, discard := discard,
                           tacticalDice := [], log := log }), env.counter)
  | .useScienceShields =>
    if state.status != .playing || state.phase != .assigning then (state, env.counter)
    else if state.usedStationActions.contains "USE_SCIENCE" then (state, env.counter)
    else
      let sciCount := countAtStation state.crew .science
      if sciCount = 0 then (state, env.counter)
      else if state.nebulaActive then
        ({ state with log := state.log ++
            ["Science: shields cannot be recharged — Nebula is active!"] }, env.counter)
      else
        let shields := resolveScience state.maxShields
        ({ state with shields := shields,
                      usedStationActions := state.usedStationActions ++ ["USE_SCIENCE"],
                      log := state.log ++
                        ["Science: shields recharged to " ++ toString shields ++ "/" ++
                         toString state.maxShields ++ "."] }, env.counter)
  | .useScienceStasis targetThreatId =>
    if state.status != .playing || state.phase != .assigning then (state, env.counter)
    else if state.usedStationActions.contains "USE_SCIENCE" then (state, env.counter)
    else
      let sciCount := countAtStation state.crew .science
      if sciCount = 0 then (state, env.counter)
      else
        match state.activeThreats.find? (fun t => t.id == targetThreatId) with
        | none => (state, env.counter)
        | some target =>
          ({ state with
               activeThreats := placeStasisToken state.activeThreats targetThreatId,
               usedStationActions := state.usedStationActions ++ ["USE_SCIENCE"],
               log := state.log ++
                 ["Science: stasis token placed on " ++ target.card.name ++ "."] },
           env.counter)
  | .useCommanderReroll =>
    if state.status != .playing || state.phase != .assigning then (state, env.counter)
    else if state.commsOfflineActive then (state, env.counter)
    else if state.usedStationActions.contains "USE_COMMANDER" then (state, env.counter)
    else
      let cmdCount := countAtStation state.crew .commander
      if cmdCount = 0 then (state, env.counter)
      else
        let rerollCount := commanderRerollCount state.crew
        let newFaces := rollAllCrewDice env.rerollFaces rerollCount
        let poolDice := state.crew.filter (fun d => d.location == .pool)
        let newFaceOf := fun (d : CrewDie) =>
          match poolDice.findIdx? (fun p => p.id == d.id) with
          | none => d.face
          | some i => (newFaces[i]?).getD d.face
        let crew1 := state.crew.map (fun d =>
          if d.location != .pool then d
          else
            let nf := newFaceOf d
            if nf == .threat then
              { d with face := nf, location := .station .scanners }
            else { d with face := nf })
        let newThreatCount :=
          (state.crew.filter (fun d =>
            d.location == .pool && newFaceOf d == .threat)).length
        let log := state.log ++
          ["Commander: re-rolled " ++ toString rerollCount ++ " dice."] ++
          (if newThreatCount > 0 then
            [toString newThreatCount ++ " new Threat Detected die/dice locked in Scanners."]
           else [])
        let pr := processScanners crew1
        let sc := drawN pr.extraDraws
          ({ state with crew := pr.crew, log := log,
                        usedStationActions :=
                          state.usedStationActions ++ ["USE_COMMANDER"] },
           env.counter)
        (withPassiveFlags (withWinLossCheck sc.1), sc.2)
  | .useCommanderChange targetDieId newFace =>
    if state.status != .playing || state.phase != .assigning then (state, env.counter)
    else if state.commsOfflineActive then (state, env.counter)
    else if state.usedStationActions.contains "USE_COMMANDER" then (state, env.counter)
    else
      let cmdCount := countAtStation state.crew .commander
      if cmdCount = 0 then (state, env.counter)
      else
        let crew1 := commanderChangeDie state.crew targetDieId newFace
        let crew2 :=
          if newFace == .threat then
            crew1.map (fun d =>
              if d.id == targetDieId && d.location == .pool then
                { d with location := .station .scanners }
              else d)
          else crew1
        (withPassiveFlags
          { state with crew := crew2,
                       usedStationActions := state.usedStationActions ++ ["USE_COMMANDER"],
                       log := state.log ++
                         ["Commander: changed die to " ++ newFace.str ++ "."] },
         env.counter)
  | .endAssignPhase =>
    if state.status != .playing || state.phase != .assigning then (state, env.counter)
    else
      let engCount := countAtStation state.crew .engineering
      let stateAfterEng :=
        if engCount > 0 then
          let newHull := resolveEngineering state.hull state.maxHull engCount
          let repaired := newHull - state.hull
          { state with hull := newHull,
                       log := if repaired > 0 then
                           state.log ++
                             ["Engineering auto-resolved: +" ++ toString repaired ++ " hull."]
                         else state.log }
        else state
      let sc := drawAndProcessCard stateAfterEng env.counter
      (withWinLossCheck
        (withPassiveFlags { sc.1 with phase := .drawing, tacticalDice := [] }), sc.2)
  | .acknowledgeDraw =>
    if state.status != .playing || state.phase != .drawing then (state, env.counter)
    else if state.setupDrawsRemaining ≥ 2 then
      let sc := drawAndProcessCard
        { state with drawnCard := none, setupDrawsRemaining := 1 } env.counter
      (withWinLossCheck (withPassiveFlags { sc.1 with phase := .drawing }), sc.2)
    else if state.setupDrawsRemaining = 1 then
      (withPassiveFlags
        { state with phase := .rolling, drawnCard := none, setupDrawsRemaining := 0 },
       env.counter)
    else ({ state with phase := .activating, drawnCard := none }, env.counter)
  | .startThreatRoll =>
    if state.status != .playing || state.phase != .activating then (state, env.counter)
    else ({ state with threatDieFace := none }, env.counter)
  | .threatRollComplete face =>
    if state.status != .playing || state.phase != .activating then (state, env.counter)
    else
      let log := state.log ++ ["Threat Die rolled: " ++ face.str ++ "."]
      let result := activateThreats
        ⟨state.hull, state.shields, state.maxShields, state.activeThreats, state.crew⟩ face
      let deck :=
        if result.log.any (fun l => containsSeq "Time Warp".data l.data) then
          let toReshuffle := state.discard.drop (state.discard.length - 3)
          if toReshuffle.length > 0 then
            let newDeck := state.deck ++ toReshuffle
            shuffleGo env.reshuffleRand (newDeck.length - 1) newDeck
          else state.deck
        else state.deck
      let st1 := withPassiveFlags
        { state with hull := result.hull, shields := result.shields,
                     activeThreats := result.threats, crew := result.crew,
                     deck := deck, log := log ++ result.log,
                     threatDieFace := some face }
      let sc := if result.extraDraw then drawAndProcessCard st1 env.counter
                else (st1, env.counter)
      (withWinLossCheck sc.1, sc.2)
  | .acknowledgeActivate =>
    if state.status != .playing || state.phase != .activating then (state, env.counter)
    else ({ state with phase := .gathering }, env.counter)
  | .acknowledgeGather =>
    if state.status != .playing || state.phase != .gathering then (state, env.counter)
    else
      let crew := gatherCrew state.crew state.activeThreats
      let gathered := (crew.filter (fun d => d.location == .pool)).length
      let log := state.log ++
        ["Crew gathered. " ++ toString gathered ++ " crew ready for next turn."]
      (withWinLossCheck (withPassiveFlags
        { state with crew := crew, log := log, phase := .rolling,
                     turnNumber := state.turnNumber + 1, tacticalDice := [],
                     drawnCard := none, selectedDieId := none,
                     usedStationActions := [] }), env.counter)

-- ── Statement-level definitions ───────────────────────────────────────────────

/-- The spec's wording of the two-stage damage rule, stated independently of
the implementation: shield damage is subtracted directly from shields, with
any excess beyond the available shields overflowing to hull; then hull
damage is subtracted from the remaining shields first, with only the
remainder hitting hull; both resources are floored at zero.  Returns
(hull, shields). -/
def twoStageSpecDamage (hull shields hullDmg shieldDmg : Int) : Int × Int :=
  let overflow := max 0 (shieldDmg - shields)
  let shields1 := max 0 (shields - shieldDmg)
  let hull1 := hull - overflow
  let absorbed := min shields1 hullDmg
  let shields2 := shields1 - absorbed
  let remainder := hullDmg - absorbed
  let hull2 := hull1 - remainder
  (max 0 hull2, max 0 shields2)

/-- A threat that blocks winning, in the claim's words: a non-destroyed
external, boss, or boss-barrier threat. -/
def menace (t : ActiveThreat) : Prop :=
  t.isDestroyed = false ∧
  (t.card.kind = .external ∨ t.card.isOuroboros = true ∨ t.card.isBarrier = true)

/-- The ids of the crew dice, in order. -/
def idsOf (l : List CrewDie) : List Nat := l.map (·.id)

def isTestLoad : GameAction → Bool
  | .testLoadState _ => true
  | _ => false

/-- The phase each phase-gated action is designed for (`none` for the
meta actions and `TICK`, which are not phase-gated). -/
def designedPhase : GameAction → Option TurnPhase
  | .testLoadState _ => none
  | .newGame _ => none
  | .tick => none
  | .startRoll => some .rolling
  | .rollComplete _ => some .rolling
  | .selectDie _ => some .assigning
  | .assignToStation _ _ => some .assigning
  | .assignToThreat _ _ => some .assigning
  | .useEngineering => some .assigning
  | .useMedical => some .assigning
  | .useMedicalScanners => some .assigning
  | .useTactical _ => some .assigning
  | .useScienceShields => some .assigning
  | .useScienceStasis _ => some .assigning
  | .useCommanderReroll => some .assigning
  | .useCommanderChange _ _ => some .assigning
  | .endAssignPhase => some .assigning
  | .acknowledgeDraw => some .drawing
  | .startThreatRoll => some .activating
  | .threatRollComplete _ => some .activating
  | .acknowledgeActivate => some .activating
  | .acknowledgeGather => some .gathering

/-- Actions that require `status === 'playing'` (all but new-game and the
raw state load). -/
def statusGated : GameAction → Bool
  | .testLoadState _ => false
  | .newGame _ => false
  | _ => true

/-- The illegality conditions under which the reducer is a strict no-op:
wrong status for a status-gated action; wrong phase for a phase-gated
action; a nonexistent (or non-pool) die for `ASSIGN_TO_STATION`; a
nonexistent die/threat or failed away-mission eligibility for
`ASSIGN_TO_THREAT`; a nonexistent target for `USE_TACTICAL` and
`USE_SCIENCE_STASIS`. -/
def illegalFor (s : GameState) (a : GameAction) : Bool :=
  (statusGated a && s.status != .playing) ||
  (match designedPhase a with
   | some p => s.phase != p
   | none => false) ||
  (match a with
   | .assignToStation dieId _ =>
     match s.crew.find? (fun d => d.id == dieId) with
     | none => true
     | some d => d.location != .pool
   | .assignToThreat dieId threatId =>
     match s.crew.find? (fun d => d.id == dieId),
           s.activeThreats.find? (fun t => t.id == threatId) with
     | none, _ => true
     | some _, none => true
     | some d, some t =>
       d.location != .pool || t.card.kind != .internal ||
       (match t.card.resolution with
        | none => true
        | some r => d.face != r.face)
   | .useTactical tid => (s.activeThreats.find? (fun t => t.id == tid)).isNone
   | .useScienceStasis tid => (s.activeThreats.find? (fun t => t.id == tid)).isNone
   | _ => false)

/-- A fixed environment for concrete runs. -/
def env0 : REnv := ⟨0, fun _ => 0, fun _ => 0, fun _ => .tactical⟩

/-- Pirates scenario: hull 8, shields 0, one active Pirates threat (external,
activation skull, health 4). -/
def pirateScenario : ActivationInput :=
  ⟨8, 0, 4, [⟨"pirates-1", PIRATES, 4, 0, [], false⟩], []⟩

/-- A playing state, in the assigning phase, holding one pool die whose face
(`medical`) does not match the tactical station. -/
def cexC1 : GameState :=
  { makeInitialState with status := .playing, phase := .assigning,
                          crew := [⟨0, .medical, .pool⟩] }

/-- A playing state in the assigning phase where Medical was already used
this turn, a medical die sits at the Medical station and one die is locked
in the scanners. -/
def cexC9 : GameState :=
  { makeInitialState with
      status := .playing, phase := .assigning,
      crew := [⟨0, .medical, .station .medical⟩, ⟨1, .threat, .station .scanners⟩],
      usedStationActions := ["USE_MEDICAL"] }

/-- A playing state in the assigning phase with an empty deck. -/
def emptyDeckState : GameState :=
  { makeInitialState with status := .playing, phase := .assigning, deck := [] }

end DSD6

-- ── Proofs ────────────────────────────────────────────────────────────────────

namespace DSD6

/-- Claim C2 (amended): for all non-negative inputs `applyDamage` never
returns a negative hull or negative shields, and — whenever the total damage
dealt does not exceed the available hull plus shields, so that the zero
floor on hull does not discard any damage — the shield decrease plus the
hull decrease equals the total damage dealt. -/
theorem applyDamage_ok (hull shields hullDmg shieldDmg : Int)
    (hh : 0 ≤ hull) (hs : 0 ≤ shields) (hhd : 0 ≤ hullDmg) (hsd : 0 ≤ shieldDmg) :
    0 ≤ (applyDamage hull shields hullDmg shieldDmg).hull ∧
    0 ≤ (applyDamage hull shields hullDmg shieldDmg).shields ∧
    (hullDmg + shieldDmg ≤ hull + shields →
      (shields - (applyDamage hull shields hullDmg shieldDmg).shields) +
        (hull - (applyDamage hull shields hullDmg shieldDmg).hull) =
        hullDmg + shieldDmg) := by
  unfold applyDamage
  dsimp only
  split_ifs <;> dsimp only <;> refine ⟨by omega, by omega, fun hle => by omega⟩

/-- Claim C2, counterexample to the conservation part as stated: at the
non-negative input `hull = 2, shields = 0, hullDmg = 10, shieldDmg = 0`
(the source's own "hull cannot go below 0" test case) the shields absorb 0
and the hull drops only from 2 to 0, so absorbed + applied = 2 ≠ 10 = the
total damage dealt. -/
theorem applyDamage_conservation_cex :
    (0:Int) ≤ 2 ∧ (0:Int) ≤ 0 ∧ (0:Int) ≤ 10 ∧
    ((0:Int) - (applyDamage 2 0 10 0).shields) +
      ((2:Int) - (applyDamage 2 0 10 0).hull) ≠ 10 + 0 := by
  decide

/-- Witness for `applyDamage_ok` at `hull = 8, shields = 4, hullDmg = 2,
shieldDmg = 1`. -/
theorem applyDamage_ok_witness :
    0 ≤ (applyDamage 8 4 2 1).hull ∧ 0 ≤ (applyDamage 8 4 2 1).shields ∧
    ((4:Int) - (applyDamage 8 4 2 1).shields) +
      ((8:Int) - (applyDamage 8 4 2 1).hull) = 2 + 1 :=
  have h := applyDamage_ok 8 4 2 1 (by decide) (by decide) (by decide) (by decide)
  ⟨h.1, h.2.1, h.2.2 (by decide)⟩

/-- Claim C3: `applyDamage` computes exactly the two-stage rule of the spec
(shield damage directly to shields with overflow to hull, then hull damage
absorbed by the remaining shields first, both resources floored at zero),
stated here as agreement with the independently written spec formula
`twoStageSpecDamage` on its documented domain of non-negative shields and
damage amounts. -/
theorem applyDamage_twoStage (hull shields hullDmg shieldDmg : Int)
    (hs : 0 ≤ shields) (hhd : 0 ≤ hullDmg) (hsd : 0 ≤ shieldDmg) :
    (applyDamage hull shields hullDmg shieldDmg).hull =
      (twoStageSpecDamage hull shields hullDmg shieldDmg).1 ∧
    (applyDamage hull shields hullDmg shieldDmg).shields =
      (twoStageSpecDamage hull shields hullDmg shieldDmg).2 := by
  unfold applyDamage twoStageSpecDamage
  dsimp only
  split_ifs <;> dsimp only <;> constructor <;> omega

/-- Witness for `applyDamage_twoStage` at `8 4 2 1`. -/
theorem applyDamage_twoStage_witness :
    (applyDamage 8 4 2 1).hull = (twoStageSpecDamage 8 4 2 1).1 ∧
    (applyDamage 8 4 2 1).shields = (twoStageSpecDamage 8 4 2 1).2 :=
  applyDamage_twoStage 8 4 2 1 (by decide) (by decide) (by decide)

lemma menace_iff (t : ActiveThreat) :
    menace t ↔
      ((t.card.kind == ThreatKind.external || t.card.isOuroboros || t.card.isBarrier) &&
        !t.isDestroyed) = true := by
  cases hd : t.isDestroyed <;>
    simp [menace, hd, Bool.or_eq_true, beq_iff_eq, or_assoc]

/-- Claim C5: `checkWin` returns `true` exactly when the deck is empty and
no active threat is a non-destroyed external, boss, or boss-barrier threat
(only internal threats remain, or none at all). -/
theorem checkWin_iff (deck : List ThreatCard) (threats : List ActiveThreat) :
    checkWin deck threats = true ↔
      deck = [] ∧ ∀ t ∈ threats, ¬ menace t := by
  cases deck with
  | cons c cs => simp [checkWin]
  | nil =>
    simp only [checkWin, List.length_nil, gt_iff_lt, lt_self_iff_false, if_false]
    rw [beq_iff_eq, List.length_eq_zero, List.filter_eq_nil_iff]
    constructor
    · intro h
      exact ⟨trivial, fun t ht hm => h t ht ((menace_iff t).mp hm)⟩
    · rintro ⟨-, h⟩ t ht hm
      exact h t ht ((menace_iff t).mpr hm)

lemma mem_swapIdx {α : Type} {l : List α} {i j : Nat} {x : α}
    (h : x ∈ swapIdx l i j) : x ∈ l := by
  unfold swapIdx at h
  cases hi : l[i]? with
  | none => simp [hi] at h; exact h
  | some a =>
    cases hj : l[j]? with
    | none => simp [hi, hj] at h; exact h
    | some b =>
      simp only [hi, hj] at h
      rcases List.mem_or_eq_of_mem_set h with h1 | h1
      · rcases List.mem_or_eq_of_mem_set h1 with h2 | h2
        · exact h2
        · subst h2
          obtain ⟨hlt, rfl⟩ := List.getElem?_eq_some.mp hj
          exact List.getElem_mem hlt
      · subst h1
        obtain ⟨hlt, rfl⟩ := List.getElem?_eq_some.mp hi
        exact List.getElem_mem hlt

lemma mem_shuffleGo {α : Type} (rand : Nat → Nat) :
    ∀ (n : Nat) (l : List α) (x : α), x ∈ shuffleGo rand n l → x ∈ l
  | 0, _, _, h => h
  | n + 1, _, x, h => mem_swapIdx (mem_shuffleGo rand n _ x h)

lemma mem_shuffle {α : Type} {rand : Nat → Nat} {l : List α} {x : α}
    (h : x ∈ shuffle rand l) : x ∈ l :=
  mem_shuffleGo rand _ l x h

/-- Claim C4: for every difficulty (and every random stream feeding the
Fisher–Yates shuffle) the deck built by `buildDeck` has the boss card
Ouroboros as its last element, and the boss card appears at no other
position. -/
theorem buildDeck_boss_last (rand : Nat → Nat) (difficulty : Difficulty) :
    (buildDeck rand difficulty).getLast? = some OUROBOROS ∧
    OUROBOROS ∉ (buildDeck rand difficulty).dropLast := by
  unfold buildDeck
  constructor
  · exact List.getLast?_concat _
  · rw [List.dropLast_concat]
    intro hmem
    have h2 := mem_shuffle hmem
    rcases List.mem_append.mp h2 with h3 | h3
    · revert h3; decide
    · have := List.eq_of_mem_replicate h3
      revert this; decide

/-- Claim C7: if the activation pass runs on a rolled symbol matching the
activation symbol of a boss-barrier threat whose health is 0 (destroyed
flag set) and which holds no stasis token, the barrier regenerates to its
template maximum with the destroyed flag cleared, and its fixed 2 hull
damage is still dealt through the two-stage `applyDamage` rule in that same
activation. -/
theorem barrier_regenerates (hull shields ms : Int) (crew : List CrewDie)
    (tid : String) (c : ThreatCard) (f : ThreatSymbol)
    (hk : c.kind = .bossBarrier) (ha : c.activation = f) (hb : c.isBarrier = true) :
    activateThreats ⟨hull, shields, ms, [⟨tid, c, 0, 0, [], true⟩], crew⟩ f =
      ⟨(applyDamage hull shields 2 0).hull, (applyDamage hull shields 2 0).shields,
       [⟨tid, c, c.maxHealth, 0, [], false⟩], crew,
       [c.name ++ " activates!"] ++ (applyDamage hull shields 2 0).log ++
         ["Ouroboros Barrier regenerated to full health!"], false⟩ := by
  simp [activateThreats, activateStep, barrierActivation, hk, ha, hb]

/-- Witness for `barrier_regenerates`: the Ouroboros Barrier card at
hull 8 / shields 0 regenerates to 4 health and deals 2 hull damage. -/
theorem barrier_regenerates_witness :
    OUROBOROS_BARRIER.kind = ThreatKind.bossBarrier ∧
    OUROBOROS_BARRIER.activation = ThreatSymbol.alien ∧
    OUROBOROS_BARRIER.isBarrier = true ∧
    activateThreats ⟨8, 0, 4, [⟨"b-1", OUROBOROS_BARRIER, 0, 0, [], true⟩], []⟩ .alien =
      ⟨6, 0, [⟨"b-1", OUROBOROS_BARRIER, 4, 0, [], false⟩], [],
       ["Ouroboros Barrier activates!", "2 hull damage.",
        "Ouroboros Barrier regenerated to full health!"], false⟩ :=
  ⟨rfl, rfl, rfl,
   (barrier_regenerates 8 0 4 [] "b-1" OUROBOROS_BARRIER .alien rfl rfl rfl).trans
     (by decide)⟩

/-- Claim C8, counterexample: at the spec's scenario (hull 8, shields 0,
one Pirates threat with activation skull and health 4, roll skull) the
resulting hull is 6 but the threat's health is not 2 — activation deals
ship damage only and leaves the threat's own health untouched. -/
theorem pirates_cex :
    ¬((activateThreats pirateScenario .skull).hull = 6 ∧
      (activateThreats pirateScenario .skull).threats.map (·.health) = [2]) := by
  decide

/-- Claim C8 (amended): activating Pirates on a skull roll at hull 8 /
shields 0 yields hull 6, shields 0, and the threat's health unchanged at
4. -/
theorem pirates_amended :
    (activateThreats pirateScenario .skull).hull = 6 ∧
    (activateThreats pirateScenario .skull).shields = 0 ∧
    (activateThreats pirateScenario .skull).threats.map (·.health) = [4] := by
  decide

lemma withWinLossCheck_fields (s : GameState) :
    (withWinLossCheck s).phase = s.phase ∧
    (withWinLossCheck s).crew = s.crew ∧
    (withWinLossCheck s).deck = s.deck ∧
    (withWinLossCheck s).discard = s.discard ∧
    (withWinLossCheck s).activeThreats = s.activeThreats ∧
    (withWinLossCheck s).drawnCard = s.drawnCard ∧
    (withWinLossCheck s).hull = s.hull ∧
    (withWinLossCheck s).shields = s.shields ∧
    (withWinLossCheck s).usedStationActions = s.usedStationActions := by
  unfold withWinLossCheck
  split_ifs <;> exact ⟨rfl, rfl, rfl, rfl, rfl, rfl, rfl, rfl, rfl⟩

lemma withPassiveFlags_fields (s : GameState) :
    (withPassiveFlags s).phase = s.phase ∧
    (withPassiveFlags s).crew = s.crew ∧
    (withPassiveFlags s).deck = s.deck ∧
    (withPassiveFlags s).discard = s.discard ∧
    (withPassiveFlags s).activeThreats = s.activeThreats ∧
    (withPassiveFlags s).drawnCard = s.drawnCard ∧
    (withPassiveFlags s).hull = s.hull ∧
    (withPassiveFlags s).shields = s.shields ∧
    (withPassiveFlags s).usedStationActions = s.usedStationActions :=
  ⟨rfl, rfl, rfl, rfl, rfl, rfl, rfl, rfl, rfl⟩

/-- Claim C10: with an empty deck every card-draw site is a silent no-op:
`drawCard` returns the distinguished empty result, `drawAndProcessCard`
returns its input state (and counter) unchanged, and `END_ASSIGN_PHASE`
still advances the phase to `drawing` with no card drawn (deck, discard,
active threats and drawn card untouched). -/
theorem emptyDeck_silent (env : REnv) :
    drawCard [] = none ∧
    (∀ (s : GameState) (c : Nat), s.deck = [] → drawAndProcessCard s c = (s, c)) ∧
    (∀ s : GameState, s.deck = [] → s.status = .playing → s.phase = .assigning →
      (gameReducer env s .endAssignPhase).1.phase = .drawing ∧
      (gameReducer env s .endAssignPhase).1.deck = [] ∧
      (gameReducer env s .endAssignPhase).1.discard = s.discard ∧
      (gameReducer env s .endAssignPhase).1.activeThreats = s.activeThreats ∧
      (gameReducer env s .endAssignPhase).1.drawnCard = s.drawnCard) := by
  have hdraw : ∀ (s : GameState) (c : Nat), s.deck = [] → drawAndProcessCard s c = (s, c) := by
    intro s c h
    unfold drawAndProcessCard
    rw [h]
    rfl
  refine ⟨rfl, hdraw, ?_⟩
  intro s hdeck hstatus hphase
  have hguard : (s.status != GameStatus.playing || s.phase != TurnPhase.assigning) = false := by
    rw [hstatus, hphase]; rfl
  simp only [gameReducer, hguard, Bool.false_eq_true, if_false]
  set sAfterEng :=
    if countAtStation s.crew .engineering > 0 then
      let newHull := resolveEngineering s.hull s.maxHull (countAtStation s.crew .engineering)
      let repaired := newHull - s.hull
      { s with hull := newHull,
               log := if repaired > 0 then
                   s.log ++ ["Engineering auto-resolved: +" ++ toString repaired ++ " hull."]
                 else s.log }
    else s with hEng
  have hEngDeck : sAfterEng.deck = s.deck := by
    rw [hEng]; split <;> rfl
  have hEngFields : sAfterEng.discard = s.discard ∧ sAfterEng.activeThreats = s.activeThreats ∧
      sAfterEng.drawnCard = s.drawnCard := by
    rw [hEng]; split <;> exact ⟨rfl, rfl, rfl⟩
  rw [hdraw sAfterEng env.counter (hEngDeck.trans hdeck)]
  dsimp only
  have hw := withWinLossCheck_fields
    (withPassiveFlags { sAfterEng with phase := .drawing, tacticalDice := [] })
  have hp := withPassiveFlags_fields { sAfterEng with phase := .drawing, tacticalDice := [] }
  refine ⟨?_, ?_, ?_, ?_, ?_⟩
  · rw [hw.1, hp.1]
  · rw [hw.2.2.1, hp.2.2.1]; exact hEngDeck.trans hdeck
  · rw [hw.2.2.2.1, hp.2.2.2.1]; exact hEngFields.1
  · rw [hw.2.2.2.2.1, hp.2.2.2.2.1]; exact hEngFields.2.1
  · rw [hw.2.2.2.2.2.1, hp.2.2.2.2.2.1]; exact hEngFields.2.2

/-- Witness for `emptyDeck_silent` at a concrete empty-deck assigning
state. -/
theorem emptyDeck_silent_witness :
    emptyDeckState.deck = [] ∧
    drawAndProcessCard emptyDeckState 0 = (emptyDeckState, 0) ∧
    (gameReducer env0 emptyDeckState .endAssignPhase).1.phase = .drawing :=
  ⟨rfl, (emptyDeck_silent env0).2.1 emptyDeckState 0 rfl,
   ((emptyDeck_silent env0).2.2 emptyDeckState rfl rfl rfl).1⟩

/-- Claim C9 (amended): the once-per-turn budget recorded in
`usedStationActions` gates the primary Medical, Science, and Commander
abilities — once the corresponding token is recorded, dispatching
`USE_MEDICAL`, `USE_SCIENCE_SHIELDS` / `USE_SCIENCE_STASIS`, or
`USE_COMMANDER_REROLL` / `USE_COMMANDER_CHANGE` returns the state
unchanged; the secondary Medical scanner-release action is not subject to
any budget. -/
theorem station_budget_once (env : REnv) (s : GameState) :
    (s.usedStationActions.contains "USE_MEDICAL" = true →
      gameReducer env s .useMedical = (s, env.counter)) ∧
    (s.usedStationActions.contains "USE_SCIENCE" = true →
      gameReducer env s .useScienceShields = (s, env.counter) ∧
      ∀ tid, gameReducer env s (.useScienceStasis tid) = (s, env.counter)) ∧
    (s.usedStationActions.contains "USE_COMMANDER" = true →
      gameReducer env s .useCommanderReroll = (s, env.counter) ∧
      ∀ d f, gameReducer env s (.useCommanderChange d f) = (s, env.counter)) := by
  refine ⟨fun h => ?_, fun h => ⟨?_, fun tid => ?_⟩, fun h => ⟨?_, fun d f => ?_⟩⟩ <;>
    · simp only [gameReducer]
      split_ifs <;> simp_all

/-- Claim C9, counterexample: in a state where the Medical ability was
already consumed this turn (`usedStationActions = ["USE_MEDICAL"]`), the
scanner-release Medical action still changes the state — it is not
budget-checked. -/
theorem medicalScanners_bypasses_budget :
    cexC9.usedStationActions.contains "USE_MEDICAL" = true ∧
    (gameReducer env0 cexC9 .useMedicalScanners).1 ≠ cexC9 := by
  decide

/-- Witness for `station_budget_once` at the concrete state `cexC9`. -/
theorem station_budget_once_witness :
    cexC9.usedStationActions.contains "USE_MEDICAL" = true ∧
    gameReducer env0 cexC9 .useMedical = (cexC9, 0) :=
  ⟨by decide, (station_budget_once env0 cexC9).1 (by decide)⟩

/-- Claim C1, counterexample: a pool die whose face (`medical`) does not
match the tactical station's required face is nevertheless assigned by the
reducer — `ASSIGN_TO_STATION` checks only that the die exists and is in
the pool, so the state changes even though `canAssignToStation` (the
UI-side eligibility check) rejects the drop. -/
theorem assign_wrong_face_changes_state :
    (cexC1.crew.find? (fun d => d.id == 0)) = some ⟨0, .medical, .pool⟩ ∧
    canAssignToStation ⟨0, .medical, .pool⟩ .tactical cexC1.commsOfflineActive = false ∧
    (gameReducer env0 cexC1 (.assignToStation 0 .tactical)).1 ≠ cexC1 := by
  decide

end DSD6

namespace DSD6


lemma idsOf_map (f : CrewDie → CrewDie) (hf : ∀ d, (f d).id = d.id) :
    ∀ l, idsOf (l.map f) = idsOf l := by
  intro l
  induction l with
  | nil => rfl
  | cons d t ih =>
    simp only [List.map_cons, idsOf] at *
    rw [hf]
    exact congrArg _ ih

lemma idsOf_sendGo : ∀ (l : List CrewDie) (n : Nat), idsOf (sendGo l n).1 = idsOf l := by
  intro l
  induction l with
  | nil => intro n; cases n <;> rfl
  | cons d t ih =>
    intro n
    cases n with
    | zero => rfl
    | succ m =>
      simp only [sendGo]
      split <;> simp only [idsOf, List.map_cons] <;> rw [← idsOf, ← idsOf, ih]

lemma idsOf_releaseFromScanners : ∀ l, idsOf (releaseFromScanners l) = idsOf l := by
  intro l
  induction l with
  | nil => rfl
  | cons d t ih =>
    simp only [releaseFromScanners]
    split
    · rfl
    · simp only [idsOf, List.map_cons]
      rw [← idsOf, ← idsOf, ih]

lemma idsOf_processScanners (crew : List CrewDie) :
    idsOf (processScanners crew).crew = idsOf crew := by
  simp only [processScanners]
  split
  · rfl
  · exact idsOf_map _ (fun d => by split <;> rfl) crew

lemma idsOf_gatherCrew (crew : List CrewDie) (threats : List ActiveThreat) :
    idsOf (gatherCrew crew threats) = idsOf crew := by
  refine idsOf_map _ (fun d => ?_) crew
  rcases d with ⟨i, fc, loc⟩
  rcases loc with _ | st | tid
  · rfl
  · cases st <;> rfl
  · dsimp only; split <;> rfl

lemma idsOf_resolveMedical (crew : List CrewDie) :
    idsOf (resolveMedical crew) = idsOf crew :=
  idsOf_map _ (fun d => by split <;> rfl) crew

lemma idsOf_commanderChangeDie (crew : List CrewDie) (i : Nat) (f : CrewFace) :
    idsOf (commanderChangeDie crew i f) = idsOf crew :=
  idsOf_map _ (fun d => by split <;> rfl) crew

lemma idsOf_resolveThreat (threats : List ActiveThreat) (crew : List CrewDie)
    (tid : String) : idsOf (resolveThreat threats crew tid).2 = idsOf crew :=
  idsOf_map _ (fun d => by split <;> rfl) crew

lemma idsOf_sendCrewToInfirmary (acc : ActivationResult) (n : Nat) :
    idsOf (sendCrewToInfirmary acc n).crew = idsOf acc.crew := by
  simp only [sendCrewToInfirmary, sendToInfirmary]
  exact idsOf_sendGo _ _

set_option linter.unreachableTactic false in
lemma idsOf_applyCardEffect (acc : ActivationResult) (t : ActiveThreat) :
    idsOf (applyCardEffect acc t).crew = idsOf acc.crew := by
  unfold applyCardEffect
  by_cases h1 : (t.card.id == "panel-explosion") = true
  · rw [if_pos h1]
    all_goals
      first
      | rfl
      | exact idsOf_sendCrewToInfirmary _ _
      | exact idsOf_map _ (fun d => by split <;> rfl) _
      | (split <;> first | rfl | exact idsOf_map _ (fun d => by split <;> rfl) _)
  rw [if_neg h1]
  by_cases h2 : (t.card.id == "distracted" || t.card.id == "distracted-2" || t.card.id == "distracted-3") = true
  · rw [if_pos h2]
    all_goals
      first
      | rfl
      | exact idsOf_sendCrewToInfirmary _ _
      | exact idsOf_map _ (fun d => by split <;> rfl) _
      | (split <;> first | rfl | exact idsOf_map _ (fun d => by split <;> rfl) _)
  rw [if_neg h2]
  by_cases h3 : (t.card.id == "friendly-fire") = true
  · rw [if_pos h3]
    all_goals
      first
      | rfl
      | exact idsOf_sendCrewToInfirmary _ _
      | exact idsOf_map _ (fun d => by split <;> rfl) _
      | (split <;> first | rfl | exact idsOf_map _ (fun d => by split <;> rfl) _)
  rw [if_neg h3]
  by_cases h4 : (t.card.id == "boost-morale") = true
  · rw [if_pos h4]
    all_goals
      first
      | rfl
      | exact idsOf_sendCrewToInfirmary _ _
      | exact idsOf_map _ (fun d => by split <;> rfl) _
      | (split <;> first | rfl | exact idsOf_map _ (fun d => by split <;> rfl) _)
  rw [if_neg h4]
  by_cases h5 : (t.card.id == "nebula") = true
  · rw [if_pos h5]
    all_goals
      first
      | rfl
      | exact idsOf_sendCrewToInfirmary _ _
      | exact idsOf_map _ (fun d => by split <;> rfl) _
      | (split <;> first | rfl | exact idsOf_map _ (fun d => by split <;> rfl) _)
  rw [if_neg h5]
  by_cases h6 : (t.card.id == "time-warp") = true
  · rw [if_pos h6]
    all_goals
      first
      | rfl
      | exact idsOf_sendCrewToInfirmary _ _
      | exact idsOf_map _ (fun d => by split <;> rfl) _
      | (split <;> first | rfl | exact idsOf_map _ (fun d => by split <;> rfl) _)
  rw [if_neg h6]
  by_cases h7 : (t.card.id == "pandemic") = true
  · rw [if_pos h7]
    all_goals
      first
      | rfl
      | exact idsOf_sendCrewToInfirmary _ _
      | exact idsOf_map _ (fun d => by split <;> rfl) _
      | (split <;> first | rfl | exact idsOf_map _ (fun d => by split <;> rfl) _)
  rw [if_neg h7]
  by_cases h8 : (t.card.id == "spore-infestation") = true
  · rw [if_pos h8]
    all_goals
      first
      | rfl
      | exact idsOf_sendCrewToInfirmary _ _
      | exact idsOf_map _ (fun d => by split <;> rfl) _
      | (split <;> first | rfl | exact idsOf_map _ (fun d => by split <;> rfl) _)
  rw [if_neg h8]
  by_cases h9 : (t.card.id == "robot-uprising") = true
  · rw [if_pos h9]
    all_goals
      first
      | rfl
      | exact idsOf_sendCrewToInfirmary _ _
      | exact idsOf_map _ (fun d => by split <;> rfl) _
      | (split <;> first | rfl | exact idsOf_map _ (fun d => by split <;> rfl) _)
  rw [if_neg h9]
  by_cases h10 : (t.card.id == "comms-offline") = true
  · rw [if_pos h10]
    all_goals
      first
      | rfl
      | exact idsOf_sendCrewToInfirmary _ _
      | exact idsOf_map _ (fun d => by split <;> rfl) _
      | (split <;> first | rfl | exact idsOf_map _ (fun d => by split <;> rfl) _)
  rw [if_neg h10]
  by_cases h11 : (t.card.id == "strike-bombers" || t.card.id == "strike-bombers-2") = true
  · rw [if_pos h11]
    all_goals
      first
      | rfl
      | exact idsOf_sendCrewToInfirmary _ _
      | exact idsOf_map _ (fun d => by split <;> rfl) _
      | (split <;> first | rfl | exact idsOf_map _ (fun d => by split <;> rfl) _)
  rw [if_neg h11]
  by_cases h12 : (t.card.id == "scout" || t.card.id == "scout-2") = true
  · rw [if_pos h12]
    all_goals
      first
      | rfl
      | exact idsOf_sendCrewToInfirmary _ _
      | exact idsOf_map _ (fun d => by split <;> rfl) _
      | (split <;> first | rfl | exact idsOf_map _ (fun d => by split <;> rfl) _)
  rw [if_neg h12]
  by_cases h13 : (t.card.id == "pirates") = true
  · rw [if_pos h13]
    all_goals
      first
      | rfl
      | exact idsOf_sendCrewToInfirmary _ _
      | exact idsOf_map _ (fun d => by split <;> rfl) _
      | (split <;> first | rfl | exact idsOf_map _ (fun d => by split <;> rfl) _)
  rw [if_neg h13]
  by_cases h14 : (t.card.id == "space-pirates") = true
  · rw [if_pos h14]
    all_goals
      first
      | rfl
      | exact idsOf_sendCrewToInfirmary _ _
      | exact idsOf_map _ (fun d => by split <;> rfl) _
      | (split <;> first | rfl | exact idsOf_map _ (fun d => by split <;> rfl) _)
  rw [if_neg h14]
  by_cases h15 : (t.card.id == "orbital-cannon") = true
  · rw [if_pos h15]
    all_goals
      first
      | rfl
      | exact idsOf_sendCrewToInfirmary _ _
      | exact idsOf_map _ (fun d => by split <;> rfl) _
      | (split <;> first | rfl | exact idsOf_map _ (fun d => by split <;> rfl) _)
  rw [if_neg h15]
  by_cases h16 : (t.card.id == "hijackers") = true
  · rw [if_pos h16]
    all_goals
      first
      | rfl
      | exact idsOf_sendCrewToInfirmary _ _
      | exact idsOf_map _ (fun d => by split <;> rfl) _
      | (split <;> first | rfl | exact idsOf_map _ (fun d => by split <;> rfl) _)
  rw [if_neg h16]
  by_cases h17 : (t.card.id == "ouroboros") = true
  · rw [if_pos h17]
    all_goals
      first
      | rfl
      | exact idsOf_sendCrewToInfirmary _ _
      | exact idsOf_map _ (fun d => by split <;> rfl) _
      | (split <;> first | rfl | exact idsOf_map _ (fun d => by split <;> rfl) _)
  rw [if_neg h17]
  all_goals rfl

lemma idsOf_activateStep (f : ThreatSymbol) (acc : ActivationResult)
    (t : ActiveThreat) : idsOf (activateStep f acc t).crew = idsOf acc.crew := by
  unfold activateStep
  repeat' split
  all_goals
    first
    | rfl
    | exact idsOf_applyCardEffect _ t

lemma idsOf_activateThreats (inp : ActivationInput) (f : ThreatSymbol) :
    idsOf (activateThreats inp f).crew = idsOf inp.crew := by
  have h : ∀ (l : List ActiveThreat) (acc : ActivationResult),
      idsOf ((l.foldl (activateStep f) acc).crew) = idsOf acc.crew := by
    intro l
    induction l with
    | nil => intro acc; rfl
    | cons x xs ih =>
      intro acc
      rw [List.foldl_cons, ih]
      exact idsOf_activateStep f acc x
  exact h _ _

lemma idsOf_resolveStep (cur : GameState) (t : ActiveThreat) :
    idsOf (resolveStep cur t).crew = idsOf cur.crew := by
  delta resolveStep
  split
  · exact idsOf_resolveThreat cur.activeThreats cur.crew t.id
  · rfl

lemma idsOf_processResolvedThreats (s : GameState) :
    idsOf (processResolvedThreats s).crew = idsOf s.crew := by
  have h : ∀ (l : List ActiveThreat) (st : GameState),
      idsOf ((l.foldl resolveStep st).crew) = idsOf st.crew := by
    intro l
    induction l with
    | nil => intro st; rfl
    | cons x xs ih =>
      intro st
      rw [List.foldl_cons, ih]
      exact idsOf_resolveStep st x
  exact h _ _

lemma idsOf_applyRevealEffect (s : GameState) (card : ThreatCard) (c : Nat) :
    idsOf (((applyRevealEffect s card c).1.crew).getD s.crew) = idsOf s.crew := by
  delta applyRevealEffect
  repeat' split
  all_goals simp only [Option.getD]
  all_goals
    first
    | rfl
    | exact idsOf_map _ (fun d => by split <;> rfl) _

lemma idsOf_drawAndProcessCard (s : GameState) (c : Nat) :
    idsOf (drawAndProcessCard s c).1.crew = idsOf s.crew := by
  delta drawAndProcessCard
  cases hd : drawCard s.deck with
  | none => rfl
  | some pr =>
    obtain ⟨card, rest⟩ := pr
    dsimp only
    split
    · rfl
    · exact idsOf_applyRevealEffect _ card c

lemma idsOf_scannerDrawLoop (total : Nat) :
    ∀ (f : Nat) (sc : GameState × Nat),
      idsOf ((scannerDrawLoop total f sc).1.crew) = idsOf sc.1.crew := by
  intro f
  induction f with
  | zero => intro sc; rfl
  | succ n ih =>
    intro sc
    simp only [scannerDrawLoop]
    rw [ih]
    exact idsOf_drawAndProcessCard sc.1 sc.2

lemma idsOf_drawN : ∀ (n : Nat) (sc : GameState × Nat),
    idsOf ((drawN n sc).1.crew) = idsOf sc.1.crew := by
  intro n
  induction n with
  | zero => intro sc; rfl
  | succ m ih =>
    intro sc
    simp only [drawN]
    rw [ih]
    exact idsOf_drawAndProcessCard sc.1 sc.2


lemma crew_withPassiveFlags (s : GameState) : (withPassiveFlags s).crew = s.crew := rfl

lemma crew_withWinLossCheck (s : GameState) : (withWinLossCheck s).crew = s.crew := by
  unfold withWinLossCheck
  split_ifs <;> rfl

set_option linter.unreachableTactic false in
lemma idsOf_gameReducer (env : REnv) (s : GameState) (a : GameAction)
    (h : isTestLoad a = false) :
    idsOf (gameReducer env s a).1.crew = idsOf s.crew ∨
    idsOf (gameReducer env s a).1.crew = [0, 1, 2, 3, 4, 5] := by
  cases a with
  | testLoadState st => simp [isTestLoad] at h
  | newGame difficulty =>
    right
    simp only [gameReducer]
    unfold startNewGame
    dsimp only
    rw [crew_withWinLossCheck, crew_withPassiveFlags]
    dsimp only
    rw [idsOf_drawAndProcessCard]
    rfl
  | tick =>
    left; simp only [gameReducer]; split <;> rfl
  | startRoll =>
    left; simp only [gameReducer]; split <;> rfl
  | rollComplete faces =>
    left
    simp only [gameReducer]
    split
    · rfl
    · dsimp only
      rw [crew_withWinLossCheck, crew_withPassiveFlags]
      dsimp only
      rw [idsOf_scannerDrawLoop]
      dsimp only
      rw [idsOf_processScanners]
      exact (idsOf_map _ (fun d => by split <;> rfl) _).trans
        (idsOf_map _ (fun d => by split <;> rfl) _)
  | selectDie dieId =>
    left; simp only [gameReducer]; split <;> rfl
  | assignToStation dieId stationId =>
    left
    simp only [gameReducer]
    repeat' split
    all_goals
      first
      | rfl
      | (rw [crew_withPassiveFlags]
         dsimp only
         exact idsOf_map _ (fun d => by split <;> rfl) _)
  | assignToThreat dieId threatId =>
    left
    simp only [gameReducer]
    repeat' split
    all_goals
      first
      | rfl
      | (rw [crew_withPassiveFlags, idsOf_processResolvedThreats, crew_withPassiveFlags]
         dsimp only
         exact idsOf_map _ (fun d => by split <;> rfl) _)
  | useEngineering =>
    left
    simp only [gameReducer]
    repeat' split
    all_goals rfl
  | useMedical =>
    left
    simp only [gameReducer]
    repeat' split
    all_goals first | rfl | exact idsOf_resolveMedical _
  | useMedicalScanners =>
    left
    simp only [gameReducer]
    repeat' split
    all_goals first | rfl | exact idsOf_releaseFromScanners _
  | useTactical targetThreatId =>
    left
    simp only [gameReducer]
    repeat' split
    all_goals first | rfl | rw [crew_withWinLossCheck, crew_withPassiveFlags]
  | useScienceShields =>
    left
    simp only [gameReducer]
    repeat' split
    all_goals rfl
  | useScienceStasis targetThreatId =>
    left
    simp only [gameReducer]
    repeat' split
    all_goals rfl
  | useCommanderReroll =>
    left
    simp only [gameReducer]
    repeat' split
    all_goals
      first
      | rfl
      | (rw [crew_withPassiveFlags, crew_withWinLossCheck, idsOf_drawN]
         dsimp only
         rw [idsOf_processScanners]
         refine idsOf_map _ (fun d => ?_) _
         repeat' split
         all_goals rfl)
  | useCommanderChange targetDieId newFace =>
    left
    simp only [gameReducer]
    repeat' split
    all_goals
      first
      | rfl
      | (rw [crew_withPassiveFlags]
         dsimp only
         first
         | exact idsOf_commanderChangeDie _ _ _
         | exact (idsOf_map _ (fun d => by split <;> rfl) _).trans
             (idsOf_commanderChangeDie _ _ _))
  | endAssignPhase =>
    left
    simp only [gameReducer]
    split
    · rfl
    · rw [crew_withWinLossCheck, crew_withPassiveFlags]
      dsimp only
      rw [idsOf_drawAndProcessCard]
      split <;> rfl
  | acknowledgeDraw =>
    left
    simp only [gameReducer]
    repeat' split
    all_goals
      first
      | rfl
      | (rw [crew_withWinLossCheck, crew_withPassiveFlags]
         dsimp only
         rw [idsOf_drawAndProcessCard])
      | rw [crew_withPassiveFlags]
  | startThreatRoll =>
    left; simp only [gameReducer]; split <;> rfl
  | threatRollComplete face =>
    left
    simp only [gameReducer]
    split
    · rfl
    · dsimp only
      rw [crew_withWinLossCheck]
      split
      · rw [idsOf_drawAndProcessCard, crew_withPassiveFlags]
        dsimp only
        exact idsOf_activateThreats _ face
      · rw [crew_withPassiveFlags]
        dsimp only
        exact idsOf_activateThreats _ face
  | acknowledgeActivate =>
    left; simp only [gameReducer]; split <;> rfl
  | acknowledgeGather =>
    left
    simp only [gameReducer]
    split
    · rfl
    · rw [crew_withWinLossCheck, crew_withPassiveFlags]
      dsimp only
      exact idsOf_gatherCrew _ _


/-- Claim C6: for every state whose crew collection has exactly 6 dice with
distinct ids, the state returned by the reducer for any action other than
the raw state load again has exactly 6 crew dice with distinct ids, and
every die has exactly one location. -/
theorem crew_invariant (env : REnv) (s : GameState) (a : GameAction)
    (ha : isTestLoad a = false) (h6 : s.crew.length = 6)
    (hnd : (idsOf s.crew).Nodup) :
    (gameReducer env s a).1.crew.length = 6 ∧
    (idsOf (gameReducer env s a).1.crew).Nodup ∧
    ∀ d ∈ (gameReducer env s a).1.crew, ∃! loc, d.location = loc := by
  have hlen : ∀ l : List CrewDie, (idsOf l).length = l.length :=
    fun l => List.length_map _ _
  have htriv : ∀ d ∈ (gameReducer env s a).1.crew, ∃! loc, d.location = loc :=
    fun d _ => ⟨d.location, rfl, fun y hy => hy.symm⟩
  rcases idsOf_gameReducer env s a ha with hid | hid
  · have hl := congrArg List.length hid
    rw [hlen, hlen] at hl
    refine ⟨hl.trans h6, ?_, htriv⟩
    rw [hid]
    exact hnd
  · have hl := congrArg List.length hid
    rw [hlen] at hl
    refine ⟨hl.trans (by decide), ?_, htriv⟩
    rw [hid]
    decide

/-- Witness for `crew_invariant` at the initial state and `TICK`. -/
theorem crew_invariant_witness :
    isTestLoad GameAction.tick = false ∧
    makeInitialState.crew.length = 6 ∧
    (idsOf makeInitialState.crew).Nodup ∧
    (gameReducer env0 makeInitialState .tick).1.crew.length = 6 ∧
    (idsOf (gameReducer env0 makeInitialState .tick).1.crew).Nodup :=
  ⟨rfl, by decide, by decide,
   (crew_invariant env0 makeInitialState .tick rfl (by decide) (by decide)).1,
   (crew_invariant env0 makeInitialState .tick rfl (by decide) (by decide)).2.1⟩


/-- Claim C1 (amended): the reducer is a strict no-op (state and instance
counter unchanged) for every illegal dispatch of the kinds it actually
guards: any status-gated action while the status is not `playing`; any
phase-gated action in the wrong phase; `ASSIGN_TO_STATION` with a
nonexistent die or a die not in the pool; `ASSIGN_TO_THREAT` with a
nonexistent die or threat, a die not in the pool, a non-internal target, a
target without a resolution requirement, or a face mismatch; and
`USE_TACTICAL` / `USE_SCIENCE_STASIS` with a nonexistent target threat.
(The face-match / assignable-station / command-disabled rules are enforced
only by the UI-side `canAssignToStation`, not by the reducer — see the
counterexample — and `USE_COMMANDER_CHANGE` / `SELECT_DIE` do not validate
their die id.) -/
theorem illegal_action_noop (env : REnv) (s : GameState) (a : GameAction)
    (h : illegalFor s a = true) : gameReducer env s a = (s, env.counter) := by
  cases a with
  | testLoadState st => simp [illegalFor, statusGated, designedPhase] at h
  | newGame d => simp [illegalFor, statusGated, designedPhase] at h
  | tick =>
    simp only [illegalFor, statusGated, designedPhase, Bool.true_and, Bool.or_false] at h
    simp only [gameReducer]
    rw [if_pos h]
  | startRoll =>
    simp only [illegalFor, statusGated, designedPhase, Bool.true_and, Bool.or_false] at h
    simp only [gameReducer]
    rw [if_pos h]
  | rollComplete faces =>
    simp only [illegalFor, statusGated, designedPhase, Bool.true_and, Bool.or_false] at h
    simp only [gameReducer]
    rw [if_pos h]
  | selectDie dieId =>
    simp only [illegalFor, statusGated, designedPhase, Bool.true_and, Bool.or_false] at h
    simp only [gameReducer]
    rw [if_pos h]
  | useEngineering =>
    simp only [illegalFor, statusGated, designedPhase, Bool.true_and, Bool.or_false] at h
    simp only [gameReducer]
    rw [if_pos h]
  | useMedical =>
    simp only [illegalFor, statusGated, designedPhase, Bool.true_and, Bool.or_false] at h
    simp only [gameReducer]
    rw [if_pos h]
  | useMedicalScanners =>
    simp only [illegalFor, statusGated, designedPhase, Bool.true_and, Bool.or_false] at h
    simp only [gameReducer]
    rw [if_pos h]
  | useScienceShields =>
    simp only [illegalFor, statusGated, designedPhase, Bool.true_and, Bool.or_false] at h
    simp only [gameReducer]
    rw [if_pos h]
  | useCommanderReroll =>
    simp only [illegalFor, statusGated, designedPhase, Bool.true_and, Bool.or_false] at h
    simp only [gameReducer]
    rw [if_pos h]
  | useCommanderChange targetDieId newFace =>
    simp only [illegalFor, statusGated, designedPhase, Bool.true_and, Bool.or_false] at h
    simp only [gameReducer]
    rw [if_pos h]
  | endAssignPhase =>
    simp only [illegalFor, statusGated, designedPhase, Bool.true_and, Bool.or_false] at h
    simp only [gameReducer]
    rw [if_pos h]
  | acknowledgeDraw =>
    simp only [illegalFor, statusGated, designedPhase, Bool.true_and, Bool.or_false] at h
    simp only [gameReducer]
    rw [if_pos h]
  | startThreatRoll =>
    simp only [illegalFor, statusGated, designedPhase, Bool.true_and, Bool.or_false] at h
    simp only [gameReducer]
    rw [if_pos h]
  | threatRollComplete face =>
    simp only [illegalFor, statusGated, designedPhase, Bool.true_and, Bool.or_false] at h
    simp only [gameReducer]
    rw [if_pos h]
  | acknowledgeActivate =>
    simp only [illegalFor, statusGated, designedPhase, Bool.true_and, Bool.or_false] at h
    simp only [gameReducer]
    rw [if_pos h]
  | acknowledgeGather =>
    simp only [illegalFor, statusGated, designedPhase, Bool.true_and, Bool.or_false] at h
    simp only [gameReducer]
    rw [if_pos h]
  | assignToStation dieId stationId =>
    simp only [illegalFor, statusGated, designedPhase, Bool.true_and] at h
    simp only [gameReducer]
    rcases Bool.or_eq_true_iff.mp h with hg | ht
    · rw [if_pos hg]
    · split
      · rfl
      · cases hf : s.crew.find? (fun d => d.id == dieId) with
        | none => rfl
        | some d =>
          rw [hf] at ht
          dsimp only at ht
          dsimp only
          rw [if_pos ht]
  | assignToThreat dieId threatId =>
    simp only [illegalFor, statusGated, designedPhase, Bool.true_and] at h
    simp only [gameReducer]
    rcases Bool.or_eq_true_iff.mp h with hg | ht
    · rw [if_pos hg]
    · split
      · rfl
      · cases hf : s.crew.find? (fun d => d.id == dieId) with
        | none => rfl
        | some d =>
          cases hf2 : s.activeThreats.find? (fun t => t.id == threatId) with
          | none => rfl
          | some t =>
            rw [hf, hf2] at ht
            dsimp only at ht
            dsimp only
            split
            · rfl
            next hl =>
              split
              · rfl
              next hk =>
                cases hr : t.card.resolution with
                | none => rfl
                | some r =>
                  rw [hr] at ht
                  dsimp only at ht
                  dsimp only
                  have hface : (d.face != r.face) = true := by
                    rcases Bool.or_eq_true_iff.mp ht with h12 | h3
                    · rcases Bool.or_eq_true_iff.mp h12 with h1 | h2
                      · exact absurd h1 hl
                      · exact absurd h2 hk
                    · exact h3
                  rw [if_pos hface]
  | useTactical tid =>
    simp only [illegalFor, statusGated, designedPhase, Bool.true_and] at h
    simp only [gameReducer]
    rcases Bool.or_eq_true_iff.mp h with hg | ht
    · rw [if_pos hg]
    · split
      · rfl
      · split
        · rfl
        · cases hf : s.activeThreats.find? (fun t => t.id == tid) with
          | none => rfl
          | some t =>
            rw [hf] at ht
            simp [Option.isNone] at ht
  | useScienceStasis tid =>
    simp only [illegalFor, statusGated, designedPhase, Bool.true_and] at h
    simp only [gameReducer]
    rcases Bool.or_eq_true_iff.mp h with hg | ht
    · rw [if_pos hg]
    · split
      · rfl
      · split
        · rfl
        · split
          · rfl
          · cases hf : s.activeThreats.find? (fun t => t.id == tid) with
            | none => rfl
            | some t =>
              rw [hf] at ht
              simp [Option.isNone] at ht

/-- Witness for `illegal_action_noop`: `START_ROLL` dispatched while the
status is still `idle` leaves the initial state unchanged. -/
theorem illegal_action_noop_witness :
    illegalFor makeInitialState .startRoll = true ∧
    gameReducer env0 makeInitialState .startRoll = (makeInitialState, 0) :=
  ⟨by decide, illegal_action_noop env0 makeInitialState .startRoll (by decide)⟩

end DSD6
